import Mathlib

/-!
Shallow embedding of the billing-lifecycle calculator of the
`crav-invoice-generator` repository, and proofs of the specified
properties.

Sources embedded:
* `src/components/LateFeesCalculator.tsx` — `calculateLateFee` and the
  `LateFeeSettings` / `LateFeeResult` records.
* `src/unnamed/part_002` (payment-reminders API route) — the
  `ReminderConfig` record, the `DEFAULT_REMINDERS` ladder and the
  applicable-reminder lookup performed in the `PUT` handler.
* `src/unnamed/part_004` (multi-currency API route) — the `CURRENCIES`
  table and `roundCurrency`.

Modelling conventions: TypeScript `number` is embedded as `ℚ` (the
calculator is specified over exact decimal arithmetic); calendar dates
are embedded as day numbers (`ℤ`), with `daysFromCivil` translating a
Gregorian calendar date to its day number so that concrete dates from
the spec can be used, and the `differenceInDays` of `date-fns` on two pure
dates is their day-number difference.  `Math.ceil` / `Math.floor` /
`Math.round` become `Int.ceil` / `Int.floor` on `ℚ`.  The `feeType`
union of string literals is embedded as `String`, so that strings
outside the union (which the TypeScript switch silently falls through)
remain representable.  Display-only strings (the `breakdown` field of
`LateFeeResult`, built with `toFixed` formatting) are not modelled.
-/

/-- Day number of a Gregorian calendar date (days since 1970-01-01),
the standard civil-from-days inverse used by date libraries; embeds the
whole-day semantics of `differenceInDays` on parsed ISO dates. -/
def daysFromCivil (y m d : Int) : Int :=
  let y' := if m ≤ 2 then y - 1 else y
  let era := (if 0 ≤ y' then y' else y' - 399) / 400
  let yoe := y' - era * 400
  let mp := (m + 9) % 12
  let doy := (153 * mp + 2) / 5 + d - 1
  let doe := yoe * 365 + yoe / 4 - yoe / 100 + doy
  era * 146097 + doe - 719468

/-- Embedding of `differenceInDays(currentDate, due)` from `date-fns`, on
pure calendar dates: the signed whole-day difference. -/
def dayDifference (current due : Int) : Int := current - due

/-- Embedding of `Math.round` on exact rationals: half-up, ties toward +∞. -/
def mathRound (x : ℚ) : Int := Int.floor (x + 1/2)

/-- Record from `interface LateFeeSettings` in
`src/components/LateFeesCalculator.tsx`. -/
structure LateFeeSettings where
  enabled : Bool
  gracePeriodDays : Int
  feeType : String        -- "fixed" | "percentage" | "daily_percentage"
  feeAmount : ℚ           -- Fixed amount or percentage
  maxFeePercentage : ℚ    -- Cap for daily fees
  compoundDaily : Bool
  deriving DecidableEq, Repr

/-- Record from `interface LateFeeResult` in
`src/components/LateFeesCalculator.tsx`, without the display-only
`breakdown` string. -/
structure LateFeeResult where
  daysOverdue : Int
  baseFee : ℚ
  totalFee : ℚ
  newTotal : ℚ
  deriving DecidableEq, Repr

/-- The raw fee computed by the `switch (localSettings.feeType)` block of
`calculateLateFee`, before the maximum cap is applied.  The switch has no
default branch, so an unrecognised `feeType` leaves the initial `fee = 0`
unchanged. -/
def rawLateFee (s : LateFeeSettings) (invoiceTotal : ℚ) (daysOverdue : Int) : ℚ :=
  if s.feeType = "fixed" then
    s.feeAmount
  else if s.feeType = "percentage" then
    -- Monthly percentage fee: months = Math.ceil(daysOverdue / 30)
    let months : Int := Int.ceil ((daysOverdue : ℚ) / 30)
    invoiceTotal * (s.feeAmount / 100) * (months : ℚ)
  else if s.feeType = "daily_percentage" then
    if s.compoundDaily then
      let dailyRate := s.feeAmount / 100
      invoiceTotal * ((1 + dailyRate) ^ daysOverdue.toNat - 1)
    else
      invoiceTotal * (s.feeAmount / 100) * (daysOverdue : ℚ)
  else 0

/-- Embedding of `calculateLateFee` from
`src/components/LateFeesCalculator.tsx`: returns `none` when the policy is disabled or the invoice is within
grace, otherwise the fee (raw fee clamped to
`invoiceTotal * maxFeePercentage / 100`) and derived totals. -/
def calculateLateFee (s : LateFeeSettings) (invoiceTotal : ℚ)
    (dueDate currentDate : Int) : Option LateFeeResult :=
  if !s.enabled then none
  else
    let daysOverdue := dayDifference currentDate dueDate - s.gracePeriodDays
    if daysOverdue ≤ 0 then none
    else
      let fee := rawLateFee s invoiceTotal daysOverdue
      let maxFee := invoiceTotal * (s.maxFeePercentage / 100)
      let fee := if fee > maxFee then maxFee else fee
      some { daysOverdue := daysOverdue
             baseFee := fee
             totalFee := fee
             newTotal := invoiceTotal + fee }

/-- Record from `interface ReminderConfig` in the payment-reminders API
route. -/
structure ReminderConfig where
  days_offset : Int     -- Negative = before due, Positive = after due
  subject_template : String
  body_template : String
  enabled : Bool
  deriving DecidableEq, Repr

/-- Embedding of `DEFAULT_REMINDERS` from the payment-reminders API route
(the long
email body texts are display-only and abbreviated to their first line;
`days_offset` and `enabled` are the fields the matching logic reads). -/
def DEFAULT_REMINDERS : List ReminderConfig :=
  [ { days_offset := -7
      subject_template := "Upcoming Invoice Due: \x7b\x7binvoice_number\x7d\x7d"
      body_template := "Hi \x7b\x7bclient_name\x7d\x7d, friendly reminder"
      enabled := true }
  , { days_offset := -1
      subject_template := "Invoice Due Tomorrow: \x7b\x7binvoice_number\x7d\x7d"
      body_template := "Hi \x7b\x7bclient_name\x7d\x7d, due tomorrow"
      enabled := true }
  , { days_offset := 0
      subject_template := "Invoice Due Today: \x7b\x7binvoice_number\x7d\x7d"
      body_template := "Hi \x7b\x7bclient_name\x7d\x7d, due today"
      enabled := true }
  , { days_offset := 3
      subject_template := "Payment Overdue: Invoice \x7b\x7binvoice_number\x7d\x7d"
      body_template := "Hi \x7b\x7bclient_name\x7d\x7d, 3 days overdue"
      enabled := true }
  , { days_offset := 7
      subject_template := "Second Notice: Invoice \x7b\x7binvoice_number\x7d\x7d Overdue"
      body_template := "Hi \x7b\x7bclient_name\x7d\x7d, second notice"
      enabled := true }
  , { days_offset := 14
      subject_template := "Final Notice: Invoice \x7b\x7binvoice_number\x7d\x7d - Immediate Payment Required"
      body_template := "Hi \x7b\x7bclient_name\x7d\x7d, final notice"
      enabled := true } ]

/-- The applicable-reminder lookup performed in the `PUT` handler of the
payment-reminders API route:
`reminders.find(r => r.enabled && r.days_offset === daysDiff)`. -/
def findApplicableReminder (reminders : List ReminderConfig) (daysDiff : Int) :
    Option ReminderConfig :=
  reminders.find? (fun r => r.enabled && r.days_offset == daysDiff)

/-- One entry of the `CURRENCIES` table of the multi-currency API route. -/
structure CurrencyInfo where
  name : String
  symbol : String
  decimal_places : Nat
  deriving DecidableEq, Repr

/-- The `CURRENCIES` table from `src/unnamed/part_004` (object-key lookup
becomes association-list lookup). -/
def CURRENCIES : List (String × CurrencyInfo) :=
  [ ("USD", ⟨"US Dollar", "$", 2⟩)
  , ("EUR", ⟨"Euro", "€", 2⟩)
  , ("GBP", ⟨"British Pound", "£", 2⟩)
  , ("JPY", ⟨"Japanese Yen", "¥", 0⟩)
  , ("CHF", ⟨"Swiss Franc", "CHF", 2⟩)
  , ("CAD", ⟨"Canadian Dollar", "C$", 2⟩)
  , ("AUD", ⟨"Australian Dollar", "A$", 2⟩)
  , ("NZD", ⟨"New Zealand Dollar", "NZ$", 2⟩)
  , ("CNY", ⟨"Chinese Yuan", "¥", 2⟩)
  , ("HKD", ⟨"Hong Kong Dollar", "HK$", 2⟩)
  , ("SGD", ⟨"Singapore Dollar", "S$", 2⟩)
  , ("TWD", ⟨"Taiwan Dollar", "NT$", 0⟩)
  , ("KRW", ⟨"South Korean Won", "₩", 0⟩)
  , ("INR", ⟨"Indian Rupee", "₹", 2⟩)
  , ("THB", ⟨"Thai Baht", "฿", 2⟩)
  , ("MYR", ⟨"Malaysian Ringgit", "RM", 2⟩)
  , ("PHP", ⟨"Philippine Peso", "₱", 2⟩)
  , ("IDR", ⟨"Indonesian Rupiah", "Rp", 0⟩)
  , ("VND", ⟨"Vietnamese Dong", "₫", 0⟩)
  , ("SEK", ⟨"Swedish Krona", "kr", 2⟩)
  , ("NOK", ⟨"Norwegian Krone", "kr", 2⟩)
  , ("DKK", ⟨"Danish Krone", "kr", 2⟩)
  , ("PLN", ⟨"Polish Zloty", "zł", 2⟩)
  , ("CZK", ⟨"Czech Koruna", "Kč", 2⟩)
  , ("HUF", ⟨"Hungarian Forint", "Ft", 0⟩)
  , ("RON", ⟨"Romanian Leu", "lei", 2⟩)
  , ("BGN", ⟨"Bulgarian Lev", "лв", 2⟩)
  , ("HRK", ⟨"Croatian Kuna", "kn", 2⟩)
  , ("RUB", ⟨"Russian Ruble", "₽", 2⟩)
  , ("UAH", ⟨"Ukrainian Hryvnia", "₴", 2⟩)
  , ("TRY", ⟨"Turkish Lira", "₺", 2⟩)
  , ("MXN", ⟨"Mexican Peso", "MX$", 2⟩)
  , ("BRL", ⟨"Brazilian Real", "R$", 2⟩)
  , ("ARS", ⟨"Argentine Peso", "AR$", 2⟩)
  , ("CLP", ⟨"Chilean Peso", "CLP$", 0⟩)
  , ("COP", ⟨"Colombian Peso", "COL$", 0⟩)
  , ("PEN", ⟨"Peruvian Sol", "S/", 2⟩)
  , ("AED", ⟨"UAE Dirham", "د.إ", 2⟩)
  , ("SAR", ⟨"Saudi Riyal", "﷼", 2⟩)
  , ("QAR", ⟨"Qatari Riyal", "QR", 2⟩)
  , ("KWD", ⟨"Kuwaiti Dinar", "KD", 3⟩)
  , ("BHD", ⟨"Bahraini Dinar", "BD", 3⟩)
  , ("OMR", ⟨"Omani Rial", "OMR", 3⟩)
  , ("ILS", ⟨"Israeli Shekel", "₪", 2⟩)
  , ("EGP", ⟨"Egyptian Pound", "E£", 2⟩)
  , ("ZAR", ⟨"South African Rand", "R", 2⟩)
  , ("NGN", ⟨"Nigerian Naira", "₦", 2⟩)
  , ("KES", ⟨"Kenyan Shilling", "KSh", 2⟩)
  , ("BTC", ⟨"Bitcoin", "₿", 8⟩)
  , ("ETH", ⟨"Ethereum", "Ξ", 8⟩)
  , ("USDT", ⟨"Tether", "USDT", 2⟩)
  , ("USDC", ⟨"USD Coin", "USDC", 2⟩) ]

/-- The declared decimal-place count of a currency code, `none` when the
code is not in `CURRENCIES`. -/
def currencyDecimalPlaces (currency : String) : Option Nat :=
  Option.map CurrencyInfo.decimal_places (CURRENCIES.lookup currency)

/-- Embedding of `roundCurrency` from `src/unnamed/part_004`:
`Math.round(amount * factor) / factor` where `factor = 10^decimalPlaces`
and an unknown currency code defaults (`?? 2`) to two decimal places. -/
def roundCurrency (amount : ℚ) (currency : String) : ℚ :=
  let decimalPlaces := (currencyDecimalPlaces currency).getD 2
  let factor : ℚ := 10 ^ decimalPlaces
  (mathRound (amount * factor) : ℚ) / factor

/-- Unfolding equation for `roundCurrency`. -/
lemma roundCurrency_def (amount : ℚ) (currency : String) :
    roundCurrency amount currency =
      (mathRound (amount * 10 ^ (currencyDecimalPlaces currency).getD 2) : ℚ) /
        10 ^ (currencyDecimalPlaces currency).getD 2 := rfl

/-- Lower half-ulp bound: `mathRound` never undershoots `x - 1/2`. -/
lemma mathRound_gt (x : ℚ) : x - 1/2 < (mathRound x : ℚ) := by
  have h := Int.sub_one_lt_floor (x + 1/2)
  unfold mathRound
  push_cast at h ⊢
  linarith

/-- Upper half-ulp bound: `mathRound` never overshoots `x + 1/2`. -/
lemma mathRound_le (x : ℚ) : (mathRound x : ℚ) ≤ x + 1/2 := by
  have h := Int.floor_le (x + 1/2)
  unfold mathRound
  push_cast at h ⊢
  linarith

example : daysFromCivil 2025 1 10 - daysFromCivil 2025 1 9 = 1 := by decide
example : daysFromCivil 2025 3 1 - daysFromCivil 2025 2 28 = 1 := by decide
example : daysFromCivil 2024 3 1 - daysFromCivil 2024 2 28 = 2 := by decide
example : daysFromCivil 1970 1 1 = 0 := by decide
example : currencyDecimalPlaces "USD" = some 2 := by decide
example : roundCurrency (3801/200) "USD" = 1901/100 := by
  have e : (currencyDecimalPlaces "USD").getD 2 = 2 := by decide
  have hm : mathRound ((3801:ℚ)/200 * 10 ^ 2) = 1901 := by
    unfold mathRound
    rw [Int.floor_eq_iff]
    norm_num
  rw [roundCurrency_def, e, hm]
  norm_num
example : roundCurrency (194/10) "JPY" = 19 := by
  have e : (currencyDecimalPlaces "JPY").getD 2 = 0 := by decide
  have hm : mathRound ((194:ℚ)/10 * 10 ^ 0) = 19 := by
    unfold mathRound
    rw [Int.floor_eq_iff]
    norm_num
  rw [roundCurrency_def, e, hm]
  norm_num
example : Option.map ReminderConfig.days_offset
    (findApplicableReminder DEFAULT_REMINDERS
      (dayDifference (daysFromCivil 2025 1 13) (daysFromCivil 2025 1 10))) = some 3 := by
  decide

/-- Shape of a successful `calculateLateFee` run: when the policy is
enabled and the invoice is past grace, the result carries the raw fee
clamped at `invoiceTotal * maxFeePercentage / 100`. -/
lemma calculateLateFee_spec (s : LateFeeSettings) (invoiceTotal : ℚ)
    (dueDate currentDate : Int) (he : s.enabled = true)
    (hd : 0 < dayDifference currentDate dueDate - s.gracePeriodDays) :
    calculateLateFee s invoiceTotal dueDate currentDate =
      some { daysOverdue := dayDifference currentDate dueDate - s.gracePeriodDays
             baseFee := if rawLateFee s invoiceTotal
                  (dayDifference currentDate dueDate - s.gracePeriodDays) >
                  invoiceTotal * (s.maxFeePercentage / 100) then
                invoiceTotal * (s.maxFeePercentage / 100)
              else rawLateFee s invoiceTotal
                  (dayDifference currentDate dueDate - s.gracePeriodDays)
             totalFee := if rawLateFee s invoiceTotal
                  (dayDifference currentDate dueDate - s.gracePeriodDays) >
                  invoiceTotal * (s.maxFeePercentage / 100) then
                invoiceTotal * (s.maxFeePercentage / 100)
              else rawLateFee s invoiceTotal
                  (dayDifference currentDate dueDate - s.gracePeriodDays)
             newTotal := invoiceTotal +
              (if rawLateFee s invoiceTotal
                    (dayDifference currentDate dueDate - s.gracePeriodDays) >
                    invoiceTotal * (s.maxFeePercentage / 100) then
                  invoiceTotal * (s.maxFeePercentage / 100)
                else rawLateFee s invoiceTotal
                    (dayDifference currentDate dueDate - s.gracePeriodDays)) } := by
  unfold calculateLateFee
  rw [he]
  simp only [Bool.not_true, Bool.false_eq_true, if_false]
  rw [if_neg (not_le.mpr hd)]

/-- Characterisation of the `none` result: the policy is disabled or the
invoice is within grace. -/
lemma calculateLateFee_eq_none_iff (s : LateFeeSettings) (invoiceTotal : ℚ)
    (dueDate currentDate : Int) :
    calculateLateFee s invoiceTotal dueDate currentDate = none ↔
      s.enabled = false ∨
        dayDifference currentDate dueDate - s.gracePeriodDays ≤ 0 := by
  unfold calculateLateFee
  cases hen : s.enabled <;> simp only [Bool.not_true, Bool.not_false] <;>
    by_cases hd : dayDifference currentDate dueDate - s.gracePeriodDays ≤ 0 <;>
    simp [hd]

/-- A successful `calculateLateFee` run forces the policy on and the
invoice past grace. -/
lemma calculateLateFee_some_inv (s : LateFeeSettings) (invoiceTotal : ℚ)
    (dueDate currentDate : Int) (r : LateFeeResult)
    (hr : calculateLateFee s invoiceTotal dueDate currentDate = some r) :
    s.enabled = true ∧ 0 < dayDifference currentDate dueDate - s.gracePeriodDays := by
  have hne : calculateLateFee s invoiceTotal dueDate currentDate ≠ none := by
    rw [hr]; exact Option.some_ne_none r
  rw [ne_eq, calculateLateFee_eq_none_iff] at hne
  push_neg at hne
  exact ⟨Bool.of_not_eq_false hne.1, hne.2⟩

/-- Claim C1, fee cap invariant: for every `total ≥ 0` and policy with
`maxFeePercentage ≥ 0`, whenever `calculateLateFee` returns a result its
fee is at most `total * maxFeePercentage / 100`, and whenever the raw fee
exceeds that cap the returned fee equals the cap exactly. -/
theorem c1_fee_cap_invariant (s : LateFeeSettings) (total : ℚ)
    (dueDate currentDate : Int) (htotal : 0 ≤ total)
    (hmax : 0 ≤ s.maxFeePercentage) (r : LateFeeResult)
    (hr : calculateLateFee s total dueDate currentDate = some r) :
    r.totalFee ≤ total * s.maxFeePercentage / 100 ∧
      (total * (s.maxFeePercentage / 100) <
          rawLateFee s total (dayDifference currentDate dueDate - s.gracePeriodDays) →
        r.totalFee = total * (s.maxFeePercentage / 100)) := by
  obtain ⟨he, hd⟩ := calculateLateFee_some_inv s total dueDate currentDate r hr
  rw [calculateLateFee_spec s total dueDate currentDate he hd,
    Option.some.injEq] at hr
  subst hr
  simp only [gt_iff_lt]
  by_cases hc : total * (s.maxFeePercentage / 100) <
      rawLateFee s total (dayDifference currentDate dueDate - s.gracePeriodDays)
  · rw [if_pos hc]
    exact ⟨le_of_eq (mul_div_assoc total s.maxFeePercentage 100).symm, fun _ => rfl⟩
  · rw [if_neg hc]
    refine ⟨?_, fun h => absurd h hc⟩
    rw [mul_div_assoc]
    exact le_of_not_lt hc

/-- Witness for `c1_fee_cap_invariant`: concrete run where the 1.5%/month
fee on a 1000 invoice 31 days overdue stays under the 25% cap. -/
theorem c1_fee_cap_invariant_witness :
    (⟨1, 50, 50, 1050⟩ : LateFeeResult).totalFee ≤ (1000 : ℚ) * 25 / 100 ∧
      ((1000 : ℚ) * (25 / 100) <
          rawLateFee ⟨true, 0, "fixed", 50, 25, false⟩ 1000
            (dayDifference 1 0 - 0) →
        (⟨1, 50, 50, 1050⟩ : LateFeeResult).totalFee = (1000 : ℚ) * (25 / 100)) := by
  refine c1_fee_cap_invariant ⟨true, 0, "fixed", 50, 25, false⟩ 1000 0 1
    (by norm_num) (by norm_num) ⟨1, 50, 50, 1050⟩ ?_
  rw [calculateLateFee_spec _ _ _ _ rfl (by decide)]
  norm_num [rawLateFee, dayDifference]

/-- Claim C2, no-fee condition: `calculateLateFee` returns `none` exactly
when the policy is disabled or
`dayDifference(currentDate, dueDate) - gracePeriodDays ≤ 0`, and in every
other case it returns a result. -/
theorem c2_no_fee_condition (s : LateFeeSettings) (total : ℚ)
    (dueDate currentDate : Int) :
    (calculateLateFee s total dueDate currentDate = none ↔
      s.enabled = false ∨
        dayDifference currentDate dueDate - s.gracePeriodDays ≤ 0) ∧
      (s.enabled = true ∧
          0 < dayDifference currentDate dueDate - s.gracePeriodDays →
        (calculateLateFee s total dueDate currentDate).isSome = true) := by
  refine ⟨calculateLateFee_eq_none_iff s total dueDate currentDate, fun ⟨he, hd⟩ => ?_⟩
  rw [calculateLateFee_spec s total dueDate currentDate he hd]
  rfl

/-- Witness for `c2_no_fee_condition`: concrete enabled policy five days
past due. -/
theorem c2_no_fee_condition_witness :
    ((⟨true, 0, "fixed", 50, 25, false⟩ : LateFeeSettings).enabled = true ∧
        0 < dayDifference 5 0 -
          (⟨true, 0, "fixed", 50, 25, false⟩ : LateFeeSettings).gracePeriodDays) ∧
      (calculateLateFee ⟨true, 0, "fixed", 50, 25, false⟩ 100 0 5).isSome = true := by
  refine ⟨⟨rfl, by decide⟩, ?_⟩
  exact (c2_no_fee_condition ⟨true, 0, "fixed", 50, 25, false⟩ 100 0 5).2
    ⟨rfl, by decide⟩

/-- Claim C3, monthly-percentage formula: for `feeType = "percentage"`
(spec `percentage_monthly`) the raw fee is
`total * (feeAmount/100) * ceil(daysOverdue/30)`; a one-day overdue
invoice is charged a full month, and `total=1000, feeAmount=1.5,
daysOverdue=31` yields fee `30` (also through `calculateLateFee`, where
the 25% cap leaves it untouched). -/
theorem c3_monthly_percentage_formula :
    (∀ (s : LateFeeSettings) (total : ℚ) (d : Int), s.feeType = "percentage" →
        rawLateFee s total d =
          total * (s.feeAmount / 100) * ((Int.ceil ((d : ℚ) / 30) : ℤ) : ℚ)) ∧
      (∀ (s : LateFeeSettings) (total : ℚ), s.feeType = "percentage" →
        rawLateFee s total 1 = total * (s.feeAmount / 100)) ∧
      rawLateFee ⟨true, 0, "percentage", 3/2, 25, false⟩ 1000 31 = 30 ∧
      Option.map LateFeeResult.totalFee
        (calculateLateFee ⟨true, 0, "percentage", 3/2, 25, false⟩ 1000 0 31) =
          some 30 := by
  have hceil1 : (Int.ceil ((1 : ℚ) / 30) : ℤ) = 1 := by
    rw [Int.ceil_eq_iff]
    norm_num
  have hceil31 : (Int.ceil ((31 : ℚ) / 30) : ℤ) = 2 := by
    rw [Int.ceil_eq_iff]
    norm_num
  have hraw : ∀ (s : LateFeeSettings) (total : ℚ) (d : Int),
      s.feeType = "percentage" →
      rawLateFee s total d =
        total * (s.feeAmount / 100) * ((Int.ceil ((d : ℚ) / 30) : ℤ) : ℚ) := by
    intro s total d hty
    simp [rawLateFee, hty]
  have h31 : rawLateFee ⟨true, 0, "percentage", 3/2, 25, false⟩ 1000 31 = 30 := by
    rw [hraw _ _ _ rfl]
    norm_num [hceil31]
  refine ⟨hraw, fun s total hty => ?_, h31, ?_⟩
  · rw [hraw s total 1 hty]
    norm_num [hceil1]
  · rw [calculateLateFee_spec _ _ _ _ rfl (by decide)]
    simp only [Option.map_some']
    norm_num [dayDifference] at h31 ⊢
    rw [h31]
    norm_num

/-- Witness for `c3_monthly_percentage_formula`: the monthly formula
instantiated at `total=1000, feeAmount=1.5, daysOverdue=31`. -/
theorem c3_monthly_percentage_formula_witness :
    rawLateFee ⟨true, 0, "percentage", 3/2, 25, false⟩ 1000 31 =
      1000 * ((3/2 : ℚ) / 100) * ((Int.ceil (((31 : Int) : ℚ) / 30) : ℤ) : ℚ) :=
  c3_monthly_percentage_formula.1 ⟨true, 0, "percentage", 3/2, 25, false⟩ 1000 31 rfl

/-- Claim C4, daily-percentage formula: with `feeType = "daily_percentage"`
(spec `percentage_daily`) and `compoundDaily`, the raw fee is the exact
compound-interest amount `total * ((1 + feeAmount/100)^daysOverdue - 1)`;
without compounding it is linear, `total * (feeAmount/100) * daysOverdue`. -/
theorem c4_daily_percentage_formula :
    (∀ (s : LateFeeSettings) (total : ℚ) (d : Int), 0 < d →
        s.feeType = "daily_percentage" → s.compoundDaily = true →
        rawLateFee s total d = total * ((1 + s.feeAmount / 100) ^ d.toNat - 1)) ∧
      (∀ (s : LateFeeSettings) (total : ℚ) (d : Int), 0 < d →
        s.feeType = "daily_percentage" → s.compoundDaily = false →
        rawLateFee s total d = total * (s.feeAmount / 100) * (d : ℚ)) := by
  constructor <;> intro s total d _ hty hc <;> simp [rawLateFee, hty, hc]

/-- Witness for `c4_daily_percentage_formula`: 1% daily compounded over
ten days on a 1000 invoice. -/
theorem c4_daily_percentage_formula_witness :
    rawLateFee ⟨true, 0, "daily_percentage", 1, 25, true⟩ 1000 10 =
      1000 * ((1 + (1 : ℚ) / 100) ^ (Int.toNat 10) - 1) :=
  c4_daily_percentage_formula.1 ⟨true, 0, "daily_percentage", 1, 25, true⟩ 1000 10
    (by decide) rfl rfl

/-- Claim C5 counterexample: The claim "total = 0 always yields fee 0"
fails as universally stated: with a negative fixed `feeAmount` (which the
source never validates) a zero-total invoice gets fee `-5`, because the
cap `maxFee = 0` only clamps fees from above. -/
theorem c5_zero_total_counterexample :
    Option.map LateFeeResult.totalFee
      (calculateLateFee ⟨true, 0, "fixed", -5, 25, false⟩ 0 0 1) = some (-5) ∧
      ((-5 : ℚ) ≠ 0) := by
  constructor
  · rw [calculateLateFee_spec _ _ _ _ rfl (by decide)]
    simp only [Option.map_some']
    norm_num [rawLateFee, dayDifference]
  · norm_num

/-- Claim C5 as amended: Zero-total edge case for non-negative `feeAmount`:
with `total = 0` and `0 ≤ feeAmount`, every result of `calculateLateFee`
has fee 0 and `newTotal = 0`, for every `feeType` and every pair of
dates. -/
theorem c5_amended_zero_total (s : LateFeeSettings) (dueDate currentDate : Int)
    (hfee : 0 ≤ s.feeAmount) (r : LateFeeResult)
    (hr : calculateLateFee s 0 dueDate currentDate = some r) :
    r.totalFee = 0 ∧ r.newTotal = 0 := by
  obtain ⟨he, hd⟩ := calculateLateFee_some_inv s 0 dueDate currentDate r hr
  rw [calculateLateFee_spec s 0 dueDate currentDate he hd,
    Option.some.injEq] at hr
  subst hr
  have hraw : rawLateFee s 0 (dayDifference currentDate dueDate - s.gracePeriodDays) =
        s.feeAmount ∨
      rawLateFee s 0 (dayDifference currentDate dueDate - s.gracePeriodDays) = 0 := by
    unfold rawLateFee
    split_ifs <;> simp
  dsimp only
  rcases hraw with h | h
  · rw [h, zero_mul]
    by_cases hc : s.feeAmount > 0
    · rw [if_pos hc]
      exact ⟨rfl, by ring⟩
    · have h0 : s.feeAmount = 0 := le_antisymm (not_lt.mp hc) hfee
      rw [if_neg hc, h0]
      exact ⟨rfl, by ring⟩
  · rw [h, zero_mul, if_neg (lt_irrefl (0 : ℚ))]
    exact ⟨rfl, by ring⟩

/-- Witness for `c5_amended_zero_total`: zero-total invoice with a
positive fixed fee, one day overdue; the cap clamps the fee to 0. -/
theorem c5_amended_zero_total_witness :
    (0 : ℚ) ≤ (⟨true, 0, "fixed", 5, 25, false⟩ : LateFeeSettings).feeAmount ∧
      ((⟨1, 0, 0, 0⟩ : LateFeeResult).totalFee = 0 ∧
        (⟨1, 0, 0, 0⟩ : LateFeeResult).newTotal = 0) := by
  refine ⟨by norm_num, c5_amended_zero_total ⟨true, 0, "fixed", 5, 25, false⟩ 0 1
    (by norm_num) ⟨1, 0, 0, 0⟩ ?_⟩
  rw [calculateLateFee_spec _ _ _ _ rfl (by decide)]
  norm_num [rawLateFee, dayDifference]

/-- Claim C6, fixed-fee constancy: with `feeType = "fixed"` and a fixed
policy and total, the returned fee does not depend on the dates, as long
as the invoice is past grace; concretely, `total=1000, feeAmount=50`
yields fee 50 whether 1 or 100 days overdue. -/
theorem c6_fixed_fee_constancy (s : LateFeeSettings) (total : ℚ)
    (due1 cur1 due2 cur2 : Int) (hty : s.feeType = "fixed")
    (h1 : 0 < dayDifference cur1 due1 - s.gracePeriodDays)
    (h2 : 0 < dayDifference cur2 due2 - s.gracePeriodDays) :
    Option.map LateFeeResult.totalFee (calculateLateFee s total due1 cur1) =
        Option.map LateFeeResult.totalFee (calculateLateFee s total due2 cur2) ∧
      Option.map LateFeeResult.totalFee
        (calculateLateFee ⟨true, 0, "fixed", 50, 25, false⟩ 1000 0 1) = some 50 ∧
      Option.map LateFeeResult.totalFee
        (calculateLateFee ⟨true, 0, "fixed", 50, 25, false⟩ 1000 0 100) = some 50 := by
  have hfix : ∀ d : Int, rawLateFee s total d = s.feeAmount := by
    intro d
    simp [rawLateFee, hty]
  refine ⟨?_, ?_, ?_⟩
  · cases hen : s.enabled
    · rw [(calculateLateFee_eq_none_iff s total due1 cur1).mpr (Or.inl hen),
        (calculateLateFee_eq_none_iff s total due2 cur2).mpr (Or.inl hen)]
    · rw [calculateLateFee_spec s total due1 cur1 hen h1,
        calculateLateFee_spec s total due2 cur2 hen h2]
      simp only [Option.map_some']
      rw [hfix, hfix]
  · rw [calculateLateFee_spec _ _ _ _ rfl (by decide)]
    simp only [Option.map_some']
    norm_num [rawLateFee, dayDifference]
  · rw [calculateLateFee_spec _ _ _ _ rfl (by decide)]
    simp only [Option.map_some']
    norm_num [rawLateFee, dayDifference]

/-- Witness for `c6_fixed_fee_constancy`: the same fixed-fee policy
evaluated 1 day and 100 days past due gives identical fees. -/
theorem c6_fixed_fee_constancy_witness :
    Option.map LateFeeResult.totalFee
        (calculateLateFee ⟨true, 0, "fixed", 50, 25, false⟩ 1000 0 1) =
        Option.map LateFeeResult.totalFee
          (calculateLateFee ⟨true, 0, "fixed", 50, 25, false⟩ 1000 0 100) ∧
      Option.map LateFeeResult.totalFee
        (calculateLateFee ⟨true, 0, "fixed", 50, 25, false⟩ 1000 0 1) = some 50 ∧
      Option.map LateFeeResult.totalFee
        (calculateLateFee ⟨true, 0, "fixed", 50, 25, false⟩ 1000 0 100) = some 50 :=
  c6_fixed_fee_constancy ⟨true, 0, "fixed", 50, 25, false⟩ 1000 0 1 0 100 rfl
    (by decide) (by decide)

/-- First-match property of `List.find?`: it returns the element after a
run of failures. -/
lemma find_first_match {α : Type} (p : α → Bool) (pre post : List α) (r : α)
    (hr : p r = true) (hpre : ∀ q ∈ pre, ¬p q = true) :
    List.find? p (pre ++ r :: post) = some r := by
  induction pre with
  | nil => exact List.find?_cons_of_pos _ hr
  | cons a pre ih =>
    rw [List.cons_append,
      List.find?_cons_of_neg _ (by simpa using hpre a (List.mem_cons_self a pre))]
    exact ih fun q hq => hpre q (List.mem_cons_of_mem a hq)

/-- Claim C7 counterexample: The claim that the matcher "returns the first
ladder entry whose dayOffset exactly equals the day difference" ignores
the `enabled` flag the source also checks: a ladder whose only entry has
the matching offset but `enabled = false` yields no reminder. -/
theorem c7_reminder_counterexample :
    findApplicableReminder [⟨0, "s", "b", false⟩]
        (dayDifference (daysFromCivil 2025 1 10) (daysFromCivil 2025 1 10)) =
        none ∧
      ReminderConfig.days_offset ⟨0, "s", "b", false⟩ =
        dayDifference (daysFromCivil 2025 1 10) (daysFromCivil 2025 1 10) := by
  decide

/-- Claim C7 as amended: Reminder exact-offset matching on enabled entries:
the matcher returns the first *enabled* ladder entry whose `days_offset`
exactly equals `dayDifference(currentDate, dueDate)` and `none` when no
enabled entry has that exact offset (no nearest-match fallback); with the
default ladder and `dueDate = 2025-01-10`, `2025-01-09` matches offset
`-1`, `2025-01-11` matches nothing, and `2025-01-13` matches offset `3`. -/
theorem c7_amended_reminder_matching (ladder : List ReminderConfig)
    (dueDate currentDate : Int) :
    (findApplicableReminder ladder (dayDifference currentDate dueDate) = none ↔
        ∀ r ∈ ladder,
          ¬(r.enabled = true ∧
            r.days_offset = dayDifference currentDate dueDate)) ∧
      (∀ r, findApplicableReminder ladder (dayDifference currentDate dueDate) =
          some r →
        r ∈ ladder ∧ r.enabled = true ∧
          r.days_offset = dayDifference currentDate dueDate) ∧
      (∀ pre r post, ladder = pre ++ r :: post → r.enabled = true →
        r.days_offset = dayDifference currentDate dueDate →
        (∀ q ∈ pre,
          ¬(q.enabled = true ∧
            q.days_offset = dayDifference currentDate dueDate)) →
        findApplicableReminder ladder (dayDifference currentDate dueDate) =
          some r) ∧
      Option.map ReminderConfig.days_offset
        (findApplicableReminder DEFAULT_REMINDERS
          (dayDifference (daysFromCivil 2025 1 9) (daysFromCivil 2025 1 10))) =
        some (-1) ∧
      findApplicableReminder DEFAULT_REMINDERS
          (dayDifference (daysFromCivil 2025 1 11) (daysFromCivil 2025 1 10)) =
        none ∧
      Option.map ReminderConfig.days_offset
        (findApplicableReminder DEFAULT_REMINDERS
          (dayDifference (daysFromCivil 2025 1 13) (daysFromCivil 2025 1 10))) =
        some 3 := by
  refine ⟨?_, ?_, ?_, by decide, by decide, by decide⟩
  · rw [findApplicableReminder, List.find?_eq_none]
    constructor
    · intro h r hr hc
      exact h r hr (by simp [hc.1, hc.2])
    · intro h r hr hp
      simp only [Bool.and_eq_true, beq_iff_eq] at hp
      exact h r hr hp
  · intro r hr
    refine ⟨List.mem_of_find?_eq_some hr, ?_⟩
    simpa using List.find?_some hr
  · intro pre r post hlad hen hoff hpre
    subst hlad
    rw [findApplicableReminder]
    refine find_first_match _ pre post r (by simp [hen, hoff]) fun q hq => ?_
    have := hpre q hq
    simp only [Bool.and_eq_true, beq_iff_eq]
    exact fun hc => this hc

/-- Witness for `c7_amended_reminder_matching`: one day before the
2025-01-10 due date, the first-match rule fires the `-1` entry of the
default ladder. -/
theorem c7_amended_reminder_matching_witness :
    findApplicableReminder DEFAULT_REMINDERS
        (dayDifference (daysFromCivil 2025 1 9) (daysFromCivil 2025 1 10)) =
      some { days_offset := -1
             subject_template := "Invoice Due Tomorrow: \x7b\x7binvoice_number\x7d\x7d"
             body_template := "Hi \x7b\x7bclient_name\x7d\x7d, due tomorrow"
             enabled := true } :=
  (c7_amended_reminder_matching DEFAULT_REMINDERS (daysFromCivil 2025 1 10)
      (daysFromCivil 2025 1 9)).2.2.1
    [{ days_offset := -7
       subject_template := "Upcoming Invoice Due: \x7b\x7binvoice_number\x7d\x7d"
       body_template := "Hi \x7b\x7bclient_name\x7d\x7d, friendly reminder"
       enabled := true }]
    { days_offset := -1
      subject_template := "Invoice Due Tomorrow: \x7b\x7binvoice_number\x7d\x7d"
      body_template := "Hi \x7b\x7bclient_name\x7d\x7d, due tomorrow"
      enabled := true }
    (DEFAULT_REMINDERS.drop 2)
    (by decide) rfl (by decide) (by decide)

/-- Claim C8, currency rounding: `roundCurrency` rounds half-up at the
declared decimal-place count of the currency (2 for USD, 0 for JPY, 3 for
KWD/BHD/OMR, 8 for BTC/ETH): the result is an integer multiple of
`10^-p` lying in `(a - h, a + h]` for the half-ulp `h = 1/(2*10^p)`, so
ties move up; in particular `roundCurrency(19.005, USD) = 19.01` and
`roundCurrency(19.4, JPY) = 19`. -/
theorem c8_currency_rounding :
    currencyDecimalPlaces "USD" = some 2 ∧ currencyDecimalPlaces "JPY" = some 0 ∧
      currencyDecimalPlaces "KWD" = some 3 ∧ currencyDecimalPlaces "BHD" = some 3 ∧
      currencyDecimalPlaces "OMR" = some 3 ∧ currencyDecimalPlaces "BTC" = some 8 ∧
      currencyDecimalPlaces "ETH" = some 8 ∧
      (∀ (a : ℚ) (c : String) (p : ℕ), currencyDecimalPlaces c = some p →
        (roundCurrency a c * 10 ^ p).den = 1 ∧
          a - 1 / (2 * 10 ^ p) < roundCurrency a c ∧
          roundCurrency a c ≤ a + 1 / (2 * 10 ^ p)) ∧
      roundCurrency (19005/1000) "USD" = 1901/100 ∧
      roundCurrency (194/10) "JPY" = 19 := by
  refine ⟨by decide, by decide, by decide, by decide, by decide, by decide,
    by decide, ?_, ?_, ?_⟩
  · intro a c p hp
    have hgd : (currencyDecimalPlaces c).getD 2 = p := by rw [hp]; rfl
    have hpow : (0 : ℚ) < 10 ^ p := by positivity
    rw [roundCurrency_def, hgd]
    refine ⟨?_, ?_, ?_⟩
    · rw [div_mul_cancel₀ _ (ne_of_gt hpow)]
      exact Rat.den_intCast _
    · rw [lt_div_iff₀ hpow]
      have hhalf : (a - 1 / (2 * 10 ^ p)) * 10 ^ p = a * 10 ^ p - 1/2 := by
        field_simp
        ring
      rw [hhalf]
      exact mathRound_gt (a * 10 ^ p)
    · rw [div_le_iff₀ hpow]
      have hhalf : (a + 1 / (2 * 10 ^ p)) * 10 ^ p = a * 10 ^ p + 1/2 := by
        field_simp
        ring
      rw [hhalf]
      exact mathRound_le (a * 10 ^ p)
  · have e : (currencyDecimalPlaces "USD").getD 2 = 2 := by decide
    have hm : mathRound ((19005 : ℚ)/1000 * 10 ^ 2) = 1901 := by
      unfold mathRound
      rw [Int.floor_eq_iff]
      norm_num
    rw [roundCurrency_def, e, hm]
    norm_num
  · have e : (currencyDecimalPlaces "JPY").getD 2 = 0 := by decide
    have hm : mathRound ((194 : ℚ)/10 * 10 ^ 0) = 19 := by
      unfold mathRound
      rw [Int.floor_eq_iff]
      norm_num
    rw [roundCurrency_def, e, hm]
    norm_num

/-- Witness for `c8_currency_rounding`: the half-up characterisation at
`19.005` USD. -/
theorem c8_currency_rounding_witness :
    (roundCurrency (19005/1000) "USD" * 10 ^ 2).den = 1 ∧
      (19005/1000 : ℚ) - 1 / (2 * 10 ^ 2) < roundCurrency (19005/1000) "USD" ∧
      roundCurrency (19005/1000) "USD" ≤ (19005/1000 : ℚ) + 1 / (2 * 10 ^ 2) :=
  c8_currency_rounding.2.2.2.2.2.2.2.1 (19005/1000) "USD" 2 (by decide)

/-- Claim C9: the specified `ConfigurationError` does not exist in the code:
`calculateLateFee` silently returns a negative fee for a negative
`feeAmount`, silently returns fee 0 for an unknown `feeType`, and
`roundCurrency` silently substitutes the default precision 2 for an
unknown currency code instead of raising. -/
theorem c9_no_configuration_validation :
    Option.map LateFeeResult.totalFee
        (calculateLateFee ⟨true, 0, "fixed", -5, 25, false⟩ 100 0 1) =
        some (-5) ∧
      Option.map LateFeeResult.totalFee
        (calculateLateFee ⟨true, 0, "not_a_fee_type", 50, 25, false⟩ 100 0 1) =
        some 0 ∧
      currencyDecimalPlaces "ZZZ" = none ∧
      roundCurrency (19005/1000) "ZZZ" = 1901/100 := by
  refine ⟨?_, ?_, by decide, ?_⟩
  · rw [calculateLateFee_spec _ _ _ _ rfl (by decide)]
    simp only [Option.map_some']
    norm_num [rawLateFee, dayDifference]
  · rw [calculateLateFee_spec _ _ _ _ rfl (by decide)]
    simp only [Option.map_some']
    have h1 : ("not_a_fee_type" : String) ≠ "fixed" := by decide
    have h2 : ("not_a_fee_type" : String) ≠ "percentage" := by decide
    have h3 : ("not_a_fee_type" : String) ≠ "daily_percentage" := by decide
    norm_num [rawLateFee, dayDifference, h1, h2, h3]
  · have e : (currencyDecimalPlaces "ZZZ").getD 2 = 2 := by decide
    have hm : mathRound ((19005 : ℚ)/1000 * 10 ^ 2) = 1901 := by
      unfold mathRound
      rw [Int.floor_eq_iff]
      norm_num
    rw [roundCurrency_def, e, hm]
    norm_num

/-- Claim C10 counterexample: The fallthrough claim fails as universally
stated: with an unknown `feeType` and a negative `maxFeePercentage`
(never validated), the initial fee 0 exceeds the negative cap and is
clamped to it, so the fee is `-10`, not 0. -/
theorem c10_fallthrough_counterexample :
    Option.map LateFeeResult.totalFee
        (calculateLateFee ⟨true, 0, "bogus", 50, -10, false⟩ 100 0 1) =
        some (-10) ∧
      ((-10 : ℚ) ≠ 0) := by
  constructor
  · rw [calculateLateFee_spec _ _ _ _ rfl (by decide)]
    simp only [Option.map_some']
    have h1 : ("bogus" : String) ≠ "fixed" := by decide
    have h2 : ("bogus" : String) ≠ "percentage" := by decide
    have h3 : ("bogus" : String) ≠ "daily_percentage" := by decide
    norm_num [rawLateFee, dayDifference, h1, h2, h3]
  · norm_num

/-- Claim C10 as amended: Unknown-feeType fallthrough for non-negative
`total` and `maxFeePercentage`: an enabled policy whose `feeType` is none
of `fixed`/`percentage`/`daily_percentage`, past grace, yields a result
with fee 0 and `newTotal = total`, because the fee switch has no default
branch and the initial fee 0 then passes the (non-negative) cap
unchanged. -/
theorem c10_amended_unknown_feetype (s : LateFeeSettings) (total : ℚ)
    (dueDate currentDate : Int) (hf : s.feeType ≠ "fixed")
    (hp : s.feeType ≠ "percentage") (hdp : s.feeType ≠ "daily_percentage")
    (he : s.enabled = true) (htotal : 0 ≤ total) (hmax : 0 ≤ s.maxFeePercentage)
    (hd : 0 < dayDifference currentDate dueDate - s.gracePeriodDays) :
    calculateLateFee s total dueDate currentDate =
      some ⟨dayDifference currentDate dueDate - s.gracePeriodDays, 0, 0, total⟩ := by
  rw [calculateLateFee_spec s total dueDate currentDate he hd]
  have hraw :
      rawLateFee s total (dayDifference currentDate dueDate - s.gracePeriodDays) =
        0 := by
    simp [rawLateFee, hf, hp, hdp]
  have hmaxfee : (0 : ℚ) ≤ total * (s.maxFeePercentage / 100) :=
    mul_nonneg htotal (div_nonneg hmax (by norm_num))
  rw [hraw, if_neg (not_lt.mpr hmaxfee), add_zero]

/-- Witness for `c10_amended_unknown_feetype`: an enabled policy with
feeType `"bogus"`, one day overdue, returns fee 0 and an unchanged
total. -/
theorem c10_amended_unknown_feetype_witness :
    calculateLateFee ⟨true, 0, "bogus", 50, 25, false⟩ 100 0 1 =
      some ⟨1, 0, 0, 100⟩ :=
  c10_amended_unknown_feetype ⟨true, 0, "bogus", 50, 25, false⟩ 100 0 1
    (by decide) (by decide) (by decide) rfl (by norm_num) (by norm_num) (by decide)
